import Mathlib

/-!
# Verification of the DexBirdEyeScreening clients

A shallow embedding of the repository's two market-data clients
(`birdeye.py`, `dexscreener.py`), the address helper
(`utils/helpers.py`) and the data records they exchange, together with
theorems settling the specification claims.

Conventions of the embedding:
* Python exceptions become the `PyError` enumeration; fallible Python
  code becomes `Except PyError _`.
* Python `Decimal` values and `float` comparison values are both
  modelled as exact rationals (`ℚ`); binary floating-point rounding of
  the pool-ranking heuristic is abstracted away.
* JSON payloads become the `Json` inductive type.
* The HTTP transport is an external collaborator: each client method
  takes the `HttpResponse` the (single) transport call would return and
  additionally reports how many transport invocations it performed, so
  that "zero network calls" claims are statable.
-/

namespace Screening

/-- JSON values as decoded by Python's `json` module, restricted to the
shapes the clients consume (strings, integers, booleans, objects,
arrays, null). -/
inductive Json where
  | null : Json
  | bool (b : Bool) : Json
  | str (s : String) : Json
  | int (n : Int) : Json
  | obj (fields : List (String × Json)) : Json
  | arr (elems : List Json) : Json

/-- Python `==` between a JSON value and a string constant: true exactly
when the value is that string (comparison with any non-string value is
`False`, never an error). -/
def Json.eqStr : Json → String → Bool
  | .str s, t => s == t
  | _, _ => false

/-- The Python exceptions the embedded code can raise.
`noPositionsError`, `invalidSolanaAddress` and `invalidTokens` are the
repository's custom exceptions (their module `custom_exceptions` is
imported by both clients); `keyError`, `typeError`, `attributeError`,
`invalidOperation` (from `decimal`) and `valueError` are Python
built-ins raised by dictionary access and numeric conversion. -/
inductive PyError where
  | noPositionsError : PyError
  | invalidSolanaAddress : PyError
  | invalidTokens : PyError
  | keyError (k : String) : PyError
  | typeError : PyError
  | attributeError : PyError
  | invalidOperation : PyError
  | valueError : PyError
deriving DecidableEq, Repr

/-! ## Base-58 decoding and `is_solana_address` (`utils/helpers.py`)

`is_solana_address` calls `base58.b58decode` (Bitcoin alphabet) and
checks the decoded length is exactly 32, returning `False` on any
exception.  We embed the `base58` library's decoder: characters outside
the alphabet fail, each leading `'1'` contributes one zero byte, and the
remaining characters are read as a base-58 integer whose big-endian
bytes follow. -/

/-- The Bitcoin base-58 alphabet used by `base58.b58decode`. -/
def B58_ALPHABET : List Char :=
  "123456789ABCDEFGHJKLMNPQRSTUVWXYZabcdefghijkmnopqrstuvwxyz".toList

/-- Index of a character in the base-58 alphabet, `none` if absent. -/
def b58Digit (c : Char) : Option Nat :=
  B58_ALPHABET.indexOf? c

/-- `base58.b58decode_int`: read characters as a base-58 natural
number; any character outside the alphabet fails (Python raises
`ValueError`). -/
def b58decodeInt (cs : List Char) : Option Nat :=
  cs.foldlM (fun acc c => (b58Digit c).map (fun d => acc * 58 + d)) 0

/-- Big-endian byte expansion of a natural number (empty for 0),
computed with explicit fuel so that it reduces by `rfl`/`decide`. -/
def natToBytesAux : Nat → Nat → List Nat
  | 0, _ => []
  | fuel + 1, n => if n = 0 then [] else natToBytesAux fuel (n / 256) ++ [n % 256]

/-- Big-endian bytes of a natural number, as produced by the
`while acc > 0` loop of `base58.b58decode`. -/
def natToBytes (n : Nat) : List Nat :=
  natToBytesAux n n

/-- `base58.b58decode` on a string: leading `'1'` characters become
leading zero bytes, the rest is decoded as a base-58 integer.  Returns
`none` where the Python call raises.  (The library also strips trailing
whitespace before decoding; that tolerance is not modelled and no claim
depends on it.) -/
def b58decode (s : String) : Option (List Nat) := do
  let cs := s.toList
  let stripped := cs.dropWhile (· = '1')
  let acc ← b58decodeInt stripped
  return List.replicate (cs.length - stripped.length) 0 ++ natToBytes acc

/-- `is_solana_address` from `utils/helpers.py`: `b58decode` the string
and test that the decoded length is exactly 32; every exception is
caught and yields `false`. -/
def is_solana_address (address : String) : Bool :=
  match b58decode address with
  | some decoded => decoded.length == 32
  | none => false

/-! ## Python dictionary and numeric-conversion primitives -/

/-- Python `d.get(k, default)`: the value under `k`, or `default` when
the key is absent; calling `.get` on a non-dictionary raises
`AttributeError`. -/
def pyDictGet (j : Json) (k : String) (default : Json) : Except PyError Json :=
  match j with
  | .obj kvs => .ok ((kvs.lookup k).getD default)
  | _ => .error .attributeError

/-- Python `d.get(k)` (no default): the value under `k`, or `None`
(modelled as `Option.none`) when absent. -/
def pyDictGetOpt (j : Json) (k : String) : Except PyError (Option Json) :=
  match j with
  | .obj kvs => .ok (kvs.lookup k)
  | _ => .error .attributeError

/-- Python `d[k]`: raises `KeyError` when the key is absent and
`TypeError` when subscripting a non-dictionary. -/
def pyDictIndex (j : Json) (k : String) : Except PyError Json :=
  match j with
  | .obj kvs =>
    match kvs.lookup k with
    | some v => .ok v
    | none => .error (.keyError k)
  | _ => .error .typeError

/-- Value of a list of ASCII digits read in base 10. -/
def digitsToNat (cs : List Char) : Nat :=
  cs.foldl (fun a c => a * 10 + (c.toNat - 48)) 0

/-- Parse the mantissa of a decimal literal: optional integer digits,
optional dot, optional fraction digits, at least one digit overall.
Returns the combined digit value and the number of fraction digits. -/
def parseMantissa (cs : List Char) : Option (Nat × Nat) :=
  let intPart := cs.takeWhile (· ≠ '.')
  match cs.dropWhile (· ≠ '.') with
  | [] =>
    if intPart ≠ [] ∧ intPart.all Char.isDigit then
      some (digitsToNat intPart, 0)
    else none
  | _ :: frac =>
    if frac.contains '.' then none
    else if (intPart ≠ [] ∨ frac ≠ []) ∧ intPart.all Char.isDigit ∧
        frac.all Char.isDigit then
      some (digitsToNat (intPart ++ frac), frac.length)
    else none

/-- Parse the exponent part of a decimal literal (after `e`/`E`):
optional sign followed by at least one digit. -/
def parseExponent (cs : List Char) : Option Int :=
  let p : Bool × List Char :=
    match cs with
    | '+' :: r => (false, r)
    | '-' :: r => (true, r)
    | r => (false, r)
  if p.2 ≠ [] ∧ p.2.all Char.isDigit then
    some (if p.1 then -(digitsToNat p.2 : Int) else (digitsToNat p.2 : Int))
  else none

/-- The exact rational value of a decimal literal as accepted by both
Python's `Decimal` constructor and `float` on strings: surrounding
whitespace, optional sign, digits with an optional fractional part, and
an optional exponent.  Returns `none` where Python rejects the string.
The value `sign · mantissa · 10 ^ (exponent − fraction digits)` is
assembled with `mkRat` over integer arithmetic. -/
def parsePyDecimal (s : String) : Option ℚ :=
  let cs₀ := s.toList.dropWhile Char.isWhitespace
  let cs₀ := (cs₀.reverse.dropWhile Char.isWhitespace).reverse
  let sp : Bool × List Char :=
    match cs₀ with
    | '+' :: r => (false, r)
    | '-' :: r => (true, r)
    | r => (false, r)
  let signed : Nat → Int := fun m => if sp.1 then -(m : Int) else (m : Int)
  let mantPart := sp.2.takeWhile (fun c => c ≠ 'e' ∧ c ≠ 'E')
  match sp.2.dropWhile (fun c => c ≠ 'e' ∧ c ≠ 'E') with
  | [] =>
    (parseMantissa mantPart).map (fun p => mkRat (signed p.1) (10 ^ p.2))
  | _ :: ecs => do
    let p ← parseMantissa mantPart
    let e ← parseExponent ecs
    let shift : Int := e - (p.2 : Int)
    return if 0 ≤ shift then mkRat (signed p.1 * ((10 : Nat) ^ shift.toNat : Nat)) 1
      else mkRat (signed p.1) (10 ^ (-shift).toNat)

/-- Python `Decimal(x)` on a JSON value: strings are parsed exactly
(`decimal.InvalidOperation` on failure), integers and booleans convert
exactly, and any other value raises `TypeError`. -/
def pyDecimal (j : Json) : Except PyError ℚ :=
  match j with
  | .str s =>
    match parsePyDecimal s with
    | some q => .ok q
    | none => .error .invalidOperation
  | .int n => .ok (mkRat n 1)
  | .bool b => .ok (if b then mkRat 1 1 else mkRat 0 1)
  | _ => .error .typeError

/-- Python `float(x)` on a JSON value, used only as the pool-ranking
comparison value; the parsed rational stands in for the IEEE double. -/
def pyFloat (j : Json) : Except PyError ℚ :=
  match j with
  | .str s =>
    match parsePyDecimal s with
    | some q => .ok q
    | none => .error .valueError
  | .int n => .ok (mkRat n 1)
  | .bool b => .ok (if b then mkRat 1 1 else mkRat 0 1)
  | _ => .error .typeError

/-! ## Data records and the transport boundary -/

/-- Modelled from the spec: `PriceInfo` from the repository's `common`
module (imported by both clients but not present under `src/`) — an
immutable pair of exact decimal price and liquidity (§3 of the spec). -/
structure PriceInfo where
  price : ℚ
  liquidity : ℚ
deriving DecidableEq

/-- Modelled from the spec: `TokenOverview` from the repository's
`common` module — an immutable snapshot record (§3 of the spec).
`symbol`, `decimals` and `lastTradeUnixTime` are passed through
verbatim, so they stay raw JSON values here. -/
structure TokenOverview where
  price : ℚ
  symbol : Json
  decimals : Json
  lastTradeUnixTime : Json
  liquidity : ℚ
  supply : ℚ

/-- The HTTP transport boundary (§6 of the spec): each client method
performs at most one transport call, so the response that call would
produce is passed in directly.  Every client function below also
returns the number of transport invocations it performed. -/
structure HttpResponse where
  status_code : Nat
  json_body : Json

/-- Modelled from the spec: `SOL_MINT` from `vars.constants` (not
present under `src/`), the reference currency address that
`find_largest_pool_with_sol` compares quote tokens against. -/
def SOL_MINT : String := "So11111111111111111111111111111111111111112"

/-! ## `BirdEyeClient` (`src/birdeye.py`) -/

namespace BirdEyeClient

/-- `BirdEyeClient.fetch_prices` (`src/birdeye.py` lines 44–76): raises
`NoPositionsError` on an empty list, otherwise issues the single
multi-price GET, raises `InvalidTokens` on a non-200 status, and
returns the JSON body unchanged — the source performs no address
validation and no per-entry normalization here. -/
def fetch_prices (resp : HttpResponse) (token_addresses : List String) :
    Except PyError Json × Nat :=
  if token_addresses.isEmpty then (.error .noPositionsError, 0)
  else if resp.status_code ≠ 200 then (.error .invalidTokens, 1)
  else (.ok resp.json_body, 1)

/-- `BirdEyeClient.fetch_token_overview` (`src/birdeye.py` lines
78–110): validates the address with `is_solana_address`, issues the
single GET, raises `InvalidTokens` on a non-200 status, and returns the
JSON body unchanged — no `TokenOverview` is constructed by the source. -/
def fetch_token_overview (resp : HttpResponse) (address : String) :
    Except PyError Json × Nat :=
  if ¬ is_solana_address address then (.error .invalidSolanaAddress, 0)
  else if resp.status_code ≠ 200 then (.error .invalidTokens, 1)
  else (.ok resp.json_body, 1)

end BirdEyeClient

/-! ## `DexScreenerClient` (`src/dexscreener.py`) -/

namespace DexScreenerClient

/-- `DexScreenerClient._validate_token_address` (lines 21–42): an empty
address raises `NoPositionsError`, then a structurally invalid address
raises `InvalidSolanaAddress`. -/
def validate_token_address (token_address : String) : Except PyError Unit :=
  if token_address = "" then .error .noPositionsError
  else if ¬ is_solana_address token_address then .error .invalidSolanaAddress
  else .ok ()

/-- The `for` loop of `_validate_token_addresses`: validate each
address in order, stopping at the first failure. -/
def validateEach : List String → Except PyError Unit
  | [] => .ok ()
  | a :: rest => do
    validate_token_address a
    validateEach rest

/-- `DexScreenerClient._validate_token_addresses` (lines 44–62): an
empty list raises `NoPositionsError`, then each address is validated in
order. -/
def validate_token_addresses (token_addresses : List String) :
    Except PyError Unit :=
  if token_addresses.isEmpty then .error .noPositionsError
  else validateEach token_addresses

/-- `DexScreenerClient._validate_response` (lines 64–79): a non-200
status raises `InvalidTokens`. -/
def validate_response (resp : HttpResponse) : Except PyError Unit :=
  if resp.status_code ≠ 200 then .error .invalidTokens else .ok ()

/-- `DexScreenerClient._call_api` (lines 81–103): validate the single
address, issue the GET, validate the status, return the JSON body. -/
def call_api (resp : HttpResponse) (token_address : String) :
    Except PyError Json × Nat :=
  match validate_token_address token_address with
  | .error e => (.error e, 0)
  | .ok _ =>
    match validate_response resp with
    | .error e => (.error e, 1)
    | .ok _ => (.ok resp.json_body, 1)

/-- `DexScreenerClient._call_api_bulk` (lines 105–128): validate all
addresses, issue the GET, validate the status, return the JSON body. -/
def call_api_bulk (resp : HttpResponse) (token_addresses : List String) :
    Except PyError Json × Nat :=
  match validate_token_addresses token_addresses with
  | .error e => (.error e, 0)
  | .ok _ =>
    match validate_response resp with
    | .error e => (.error e, 1)
    | .ok _ => (.ok resp.json_body, 1)

/-- The normalization loop of `fetch_prices_dex` (lines 144–151): for
each response entry build `PriceInfo(Decimal(data["price"]),
Decimal(data["liquidity"]))`; the first missing key or malformed number
aborts the whole loop with the corresponding Python exception. -/
def normalizePrices : List (String × Json) → Except PyError (List (String × PriceInfo))
  | [] => .ok []
  | (addr, data) :: rest => do
    let p ← pyDecimal (← pyDictIndex data "price")
    let l ← pyDecimal (← pyDictIndex data "liquidity")
    let tail ← normalizePrices rest
    return (addr, ⟨p, l⟩) :: tail

/-- `DexScreenerClient.fetch_prices_dex` (lines 130–153): bulk call
followed by per-entry normalization over `res.items()`. -/
def fetch_prices_dex (resp : HttpResponse) (token_addresses : List String) :
    Except PyError (List (String × PriceInfo)) × Nat :=
  match call_api_bulk resp token_addresses with
  | (.error e, n) => (.error e, n)
  | (.ok body, n) =>
    match body with
    | .obj kvs => (normalizePrices kvs, n)
    | _ => (.error .attributeError, n)

/-- The `TokenOverview(...)` construction of `fetch_token_overview`
(lines 167–176), with the constructor arguments evaluated in Python's
left-to-right order: `Decimal(res["price"])`, `res["symbol"]`,
`res["decimals"]`, `res["lastTradeUnixTime"]`,
`Decimal(res["liquidity"])`, `Decimal(res["supply"])`. -/
def normalizeOverview (res : Json) : Except PyError TokenOverview := do
  let p ← pyDecimal (← pyDictIndex res "price")
  let sym ← pyDictIndex res "symbol"
  let dec ← pyDictIndex res "decimals"
  let ltt ← pyDictIndex res "lastTradeUnixTime"
  let liq ← pyDecimal (← pyDictIndex res "liquidity")
  let sup ← pyDecimal (← pyDictIndex res "supply")
  return { price := p, symbol := sym, decimals := dec,
           lastTradeUnixTime := ltt, liquidity := liq, supply := sup }

/-- `DexScreenerClient.fetch_token_overview` (lines 155–176): single
call followed by `TokenOverview` construction. -/
def fetch_token_overview (resp : HttpResponse) (address : String) :
    Except PyError TokenOverview × Nat :=
  match call_api resp address with
  | (.error e, n) => (.error e, n)
  | (.ok body, n) => (normalizeOverview body, n)

/-- The match condition of the pool-selection loop (lines 183–188):
`entry.get("baseToken", {}).get("address") == address and
entry["quoteToken"]["address"] == SOL_MINT`, with Python's
short-circuit `and` (the `quoteToken` subscripts are only evaluated
when the base token matched). -/
def pairCond (entry : Json) (address : String) : Except PyError Bool := do
  let bt ← pyDictGet entry "baseToken" (Json.obj [])
  let baddr ← pyDictGetOpt bt "address"
  match baddr with
  | some a =>
    if a.eqStr address then do
      let qt ← pyDictIndex entry "quoteToken"
      let qaddr ← pyDictIndex qt "address"
      return qaddr.eqStr SOL_MINT
    else return false
  | none => return false

/-- The liquidity extraction of the pool-selection loop (line 189):
`float(entry.get("liquidity", {}).get("usd", 0))`. -/
def pairLiquidity (entry : Json) : Except PyError ℚ := do
  let liq ← pyDictGet entry "liquidity" (Json.obj [])
  let usd ← pyDictGet liq "usd" (Json.int 0)
  pyFloat usd

/-- The scan loop of `find_largest_pool_with_sol` (lines 179–193),
carrying `max_entry` and `max_liquidity_usd`: a matching entry whose
liquidity strictly exceeds the running maximum replaces it. -/
def poolLoop (address : String) : List Json → Json → ℚ → Except PyError Json
  | [], best, _ => .ok best
  | entry :: rest, best, maxLiq =>
    match pairCond entry address with
    | .error e => .error e
    | .ok false => poolLoop address rest best maxLiq
    | .ok true =>
      match pairLiquidity entry with
      | .error e => .error e
      | .ok l =>
        if maxLiq < l then poolLoop address rest entry l
        else poolLoop address rest best maxLiq

/-- `DexScreenerClient.find_largest_pool_with_sol` (lines 178–193):
scan starting from `max_entry = {}` and `max_liquidity_usd = -1`. -/
def find_largest_pool_with_sol (token_pairs : List Json) (address : String) :
    Except PyError Json :=
  poolLoop address token_pairs (Json.obj []) (-1)

end DexScreenerClient

/-! ## Structural view of trading pairs -/

/-- Pure lookup in a JSON object (`none` on non-objects or absent
keys); used to state structural properties of payloads. -/
def Json.objLookup : Json → String → Option Json
  | .obj kvs, k => kvs.lookup k
  | _, _ => none

namespace DexScreenerClient

/-- A JSON value shaped like a `TradingPair` record (§3 of the spec):
an object whose `baseToken`, when present, is an object, and whose
`quoteToken` is an object carrying an `address`.  The `liquidity` field
is deliberately unconstrained. -/
def isTradingPair : Json → Bool
  | .obj kvs =>
    (match kvs.lookup "baseToken" with
     | none => true
     | some (.obj _) => true
     | some _ => false)
    &&
    (match kvs.lookup "quoteToken" with
     | some (.obj qt) => (qt.lookup "address").isSome
     | _ => false)
  | _ => false

/-- Propositional form of `isTradingPair`. -/
def IsTradingPair (e : Json) : Prop := isTradingPair e = true

instance (e : Json) : Decidable (IsTradingPair e) :=
  inferInstanceAs (Decidable (isTradingPair e = true))

/-- The value reached by `entry.get("baseToken", {}).get("address")`. -/
def baseTokenAddress (e : Json) : Option Json :=
  (e.objLookup "baseToken").bind (fun bt => bt.objLookup "address")

/-- The value reached by `entry["quoteToken"]["address"]` when it
exists. -/
def quoteTokenAddress (e : Json) : Option Json :=
  (e.objLookup "quoteToken").bind (fun qt => qt.objLookup "address")

/-- The pure match condition of the scan: base token address equals the
target and quote token address equals `SOL_MINT`. -/
def pairMatches (e : Json) (address : String) : Bool :=
  (match baseTokenAddress e with
   | some a => a.eqStr address
   | none => false)
  &&
  (match quoteTokenAddress e with
   | some a => a.eqStr SOL_MINT
   | none => false)

/-- The liquidity value the scan would extract, defaulting to `0` when
the extraction would raise (used only under `LiquidityOk`). -/
def liqQ (e : Json) : ℚ :=
  match pairLiquidity e with
  | .ok l => l
  | .error _ => 0

/-- The liquidity extraction of a pair does not raise. -/
def LiquidityOk (e : Json) : Prop := ∃ l, pairLiquidity e = .ok l

end DexScreenerClient

/-! ## Helper theorems -/

theorem natToBytesAux_zero (f : Nat) : natToBytesAux f 0 = [] := by
  cases f <;> simp [natToBytesAux]

/-- The fuel passed to `natToBytesAux` is irrelevant as long as it is at
least the number to expand, so `natToBytes` computes the genuine
unbounded `while acc > 0` loop of `base58.b58decode`. -/
theorem natToBytesAux_fuel_eq :
    ∀ f₁ f₂ n : Nat, n ≤ f₁ → n ≤ f₂ →
      natToBytesAux f₁ n = natToBytesAux f₂ n := by
  intro f₁
  induction f₁ with
  | zero =>
    intro f₂ n h1 _
    obtain rfl : n = 0 := Nat.le_zero.mp h1
    rw [natToBytesAux_zero, natToBytesAux_zero]
  | succ f ih =>
    intro f₂ n h1 h2
    by_cases hn : n = 0
    · subst hn; rw [natToBytesAux_zero, natToBytesAux_zero]
    · obtain ⟨g, rfl⟩ : ∃ g, f₂ = g + 1 := by
        cases f₂ with
        | zero => exact absurd (Nat.le_zero.mp h2) hn
        | succ g => exact ⟨g, rfl⟩
      simp only [natToBytesAux, if_neg hn]
      have hdiv : n / 256 < n := Nat.div_lt_self (Nat.pos_of_ne_zero hn) (by norm_num)
      have hf : n / 256 ≤ f := Nat.lt_succ_iff.mp (lt_of_lt_of_le hdiv h1)
      have hg : n / 256 ≤ g := Nat.lt_succ_iff.mp (lt_of_lt_of_le hdiv h2)
      rw [ih g (n / 256) hf hg]

/-- `natToBytes` satisfies the natural recursion of the decoder's
byte-accumulation loop. -/
theorem natToBytes_eq (n : Nat) :
    natToBytes n = if n = 0 then [] else natToBytes (n / 256) ++ [n % 256] := by
  by_cases hn : n = 0
  · subst hn; simp [natToBytes, natToBytesAux]
  · cases n with
    | zero => exact absurd rfl hn
    | succ m =>
      simp only [natToBytes, natToBytesAux, if_neg hn]
      have hk : (m + 1) / 256 ≤ m :=
        Nat.lt_succ_iff.mp (Nat.div_lt_self (Nat.succ_pos m) (by norm_num))
      exact congrArg (fun l => l ++ [(m + 1) % 256])
        (natToBytesAux_fuel_eq m ((m + 1) / 256) ((m + 1) / 256) hk le_rfl)

namespace DexScreenerClient

theorem pairLiquidity_eq_liqQ {e : Json} (h : LiquidityOk e) :
    pairLiquidity e = .ok (liqQ e) := by
  obtain ⟨l, hl⟩ := h
  simp [liqQ, hl]

/-- On a structurally well-formed trading pair the match condition
evaluates without raising, to exactly the conjunction of the two
address tests. -/
theorem pairCond_eq_pairMatches {e : Json} (address : String)
    (h : IsTradingPair e) : pairCond e address = .ok (pairMatches e address) := by
  unfold IsTradingPair isTradingPair at h
  match e with
  | .null | .bool _ | .str _ | .int _ | .arr _ => simp at h
  | .obj kvs =>
    rw [Bool.and_eq_true] at h
    obtain ⟨hbt, hqt⟩ := h
    match hq : kvs.lookup "quoteToken" with
    | none => rw [hq] at hqt; simp at hqt
    | some (.null) | some (.bool _) | some (.str _) | some (.int _)
    | some (.arr _) => rw [hq] at hqt; simp at hqt
    | some (.obj qt) =>
      rw [hq] at hqt
      simp only [Option.isSome_iff_exists] at hqt
      obtain ⟨qa, hqa⟩ := hqt
      match hb : kvs.lookup "baseToken" with
      | some (.null) | some (.bool _) | some (.str _) | some (.int _)
      | some (.arr _) => rw [hb] at hbt; simp at hbt
      | none =>
        simp [pairCond, pairMatches, pyDictGet, pyDictGetOpt, pyDictIndex,
          baseTokenAddress, quoteTokenAddress, Json.objLookup, hb, hq, hqa,
          bind, Except.bind, pure, Except.pure]
      | some (.obj bt) =>
        match hba : bt.lookup "address" with
        | none =>
          simp [pairCond, pairMatches, pyDictGet, pyDictGetOpt, pyDictIndex,
            baseTokenAddress, quoteTokenAddress, Json.objLookup, hb, hba, hq,
            hqa, bind, Except.bind, pure, Except.pure]
        | some a =>
          by_cases hmatch : a.eqStr address = true
          · simp [pairCond, pairMatches, pyDictGet, pyDictGetOpt, pyDictIndex,
              baseTokenAddress, quoteTokenAddress, Json.objLookup, hb, hba, hq,
              hqa, hmatch, bind, Except.bind, pure, Except.pure]
          · simp [pairCond, pairMatches, pyDictGet, pyDictGetOpt, pyDictIndex,
              baseTokenAddress, quoteTokenAddress, Json.objLookup, hb, hba, hq,
              hqa, hmatch, bind, Except.bind, pure, Except.pure]

/-- If every remaining matching pair has liquidity at most the running
maximum, the scan keeps the current best entry. -/
theorem poolLoop_skip (address : String) :
    ∀ (pairs : List Json) (best : Json) (m : ℚ),
      (∀ q ∈ pairs, IsTradingPair q) →
      (∀ q ∈ pairs, pairMatches q address = true → LiquidityOk q ∧ liqQ q ≤ m) →
      poolLoop address pairs best m = .ok best := by
  intro pairs
  induction pairs with
  | nil => intro best m _ _; rfl
  | cons e rest ih =>
    intro best m hwf hno
    have he : IsTradingPair e := hwf e (List.mem_cons_self e rest)
    rw [poolLoop, pairCond_eq_pairMatches address he]
    by_cases hm : pairMatches e address = true
    · obtain ⟨hok, hle⟩ := hno e (List.mem_cons_self e rest) hm
      rw [hm, pairLiquidity_eq_liqQ hok]
      show (if m < liqQ e then poolLoop address rest e (liqQ e)
        else poolLoop address rest best m) = Except.ok best
      rw [if_neg (not_lt.mpr hle)]
      exact ih best m (fun q hq => hwf q (List.mem_cons_of_mem e hq))
        (fun q hq => hno q (List.mem_cons_of_mem e hq))
    · rw [Bool.not_eq_true] at hm
      rw [hm]
      exact ih best m (fun q hq => hwf q (List.mem_cons_of_mem e hq))
        (fun q hq => hno q (List.mem_cons_of_mem e hq))

/-- If `p` is the first pair attaining the maximum liquidity among the
matching pairs (strictly above all earlier matches and the running
maximum, at least all later matches), the scan returns `p`. -/
theorem poolLoop_first_max (address : String) (p : Json)
    (hpm : pairMatches p address = true) :
    ∀ (pre post : List Json) (best : Json) (m : ℚ),
      (∀ q ∈ pre ++ p :: post, IsTradingPair q) →
      (∀ q ∈ pre ++ p :: post, pairMatches q address = true → LiquidityOk q) →
      m < liqQ p →
      (∀ q ∈ pre, pairMatches q address = true → liqQ q < liqQ p) →
      (∀ q ∈ post, pairMatches q address = true → liqQ q ≤ liqQ p) →
      poolLoop address (pre ++ p :: post) best m = .ok p := by
  intro pre
  induction pre with
  | nil =>
    intro post best m hwf hlq hm _ hpost
    have hp : IsTradingPair p := hwf p (by simp)
    rw [List.nil_append, poolLoop, pairCond_eq_pairMatches address hp, hpm,
      pairLiquidity_eq_liqQ (hlq p (by simp) hpm)]
    show (if m < liqQ p then poolLoop address post p (liqQ p)
      else poolLoop address post best m) = Except.ok p
    rw [if_pos hm]
    exact poolLoop_skip address post p (liqQ p)
      (fun q hq => hwf q (by simp [hq]))
      (fun q hq hqm => ⟨hlq q (by simp [hq]) hqm, hpost q hq hqm⟩)
  | cons e pre' ih =>
    intro post best m hwf hlq hm hpre hpost
    have he : IsTradingPair e := hwf e (by simp)
    rw [List.cons_append, poolLoop, pairCond_eq_pairMatches address he]
    have hrest : ∀ q ∈ pre' ++ p :: post, IsTradingPair q :=
      fun q hq => hwf q (by simp [List.mem_append] at hq ⊢; tauto)
    have hlqrest : ∀ q ∈ pre' ++ p :: post, pairMatches q address = true →
        LiquidityOk q :=
      fun q hq => hlq q (by simp [List.mem_append] at hq ⊢; tauto)
    have hpre' : ∀ q ∈ pre', pairMatches q address = true → liqQ q < liqQ p :=
      fun q hq => hpre q (List.mem_cons_of_mem e hq)
    by_cases hem : pairMatches e address = true
    · have helt : liqQ e < liqQ p := hpre e (List.mem_cons_self e pre') hem
      rw [hem, pairLiquidity_eq_liqQ (hlq e (by simp) hem)]
      show (if m < liqQ e then poolLoop address (pre' ++ p :: post) e (liqQ e)
        else poolLoop address (pre' ++ p :: post) best m) = Except.ok p
      by_cases hup : m < liqQ e
      · rw [if_pos hup]
        exact ih post e (liqQ e) hrest hlqrest helt hpre' hpost
      · rw [if_neg hup]
        exact ih post best m hrest hlqrest hm hpre' hpost
    · rw [Bool.not_eq_true] at hem
      rw [hem]
      exact ih post best m hrest hlqrest hm hpre' hpost

end DexScreenerClient

/-! ## Claim theorems -/

/-- C5: for every string, `is_solana_address` returns `true` exactly
when base-58 decoding succeeds and the decoded byte length is 32; on
every other string it returns `false`, and being a total `Bool`-valued
function it never raises. -/
theorem is_solana_address_iff_32_bytes (s : String) :
    is_solana_address s = true ↔ ∃ bs, b58decode s = some bs ∧ bs.length = 32 := by
  unfold is_solana_address
  cases h : b58decode s with
  | none => simp
  | some bs => simp [h]

/-- Witness for C5 at the concrete address `So111…112`. -/
theorem is_solana_address_iff_32_bytes_witness :
    ∃ bs, b58decode "So11111111111111111111111111111111111111112" = some bs ∧
      bs.length = 32 :=
  (is_solana_address_iff_32_bytes "So11111111111111111111111111111111111111112").mp
    (by decide)

/-- C8: on the empty address list both clients fail with
`NoPositionsError` and perform zero transport invocations, whatever the
transport would have answered. -/
theorem fetch_prices_empty_no_positions (resp : HttpResponse) :
    BirdEyeClient.fetch_prices resp [] = (.error .noPositionsError, 0) ∧
    DexScreenerClient.fetch_prices_dex resp [] = (.error .noPositionsError, 0) :=
  ⟨rfl, rfl⟩

/-- Witness for C8 at a concrete 200-status transport stub. -/
theorem fetch_prices_empty_no_positions_witness :
    BirdEyeClient.fetch_prices ⟨200, Json.obj []⟩ [] = (.error .noPositionsError, 0) ∧
    DexScreenerClient.fetch_prices_dex ⟨200, Json.obj []⟩ [] =
      (.error .noPositionsError, 0) :=
  fetch_prices_empty_no_positions ⟨200, Json.obj []⟩

/-- C7: on a list of structurally well-formed trading pairs none of
which matches both the base-token and the quote-token address
condition — in particular on the empty list — the pool scan returns the
empty dictionary and does not raise. -/
theorem find_largest_pool_no_match_empty (pairs : List Json) (address : String)
    (hwf : ∀ q ∈ pairs, DexScreenerClient.IsTradingPair q)
    (hnone : ∀ q ∈ pairs, DexScreenerClient.pairMatches q address = false) :
    DexScreenerClient.find_largest_pool_with_sol pairs address = .ok (Json.obj []) := by
  unfold DexScreenerClient.find_largest_pool_with_sol
  exact DexScreenerClient.poolLoop_skip address pairs (Json.obj []) (-1) hwf
    (fun q hq hm => absurd hm (by simp [hnone q hq]))

/-- Witness for C7: the empty pair list, and a single well-formed pair
whose base token does not match the target. -/
theorem find_largest_pool_no_match_empty_witness :
    DexScreenerClient.find_largest_pool_with_sol [] "A" = .ok (Json.obj []) ∧
    DexScreenerClient.find_largest_pool_with_sol
      [Json.obj [("baseToken", Json.obj [("address", Json.str "B")]),
        ("quoteToken", Json.obj [("address", Json.str SOL_MINT)]),
        ("liquidity", Json.obj [("usd", Json.str "500")])]] "A" =
      .ok (Json.obj []) :=
  ⟨find_largest_pool_no_match_empty [] "A" (by decide) (by decide),
   find_largest_pool_no_match_empty
     [Json.obj [("baseToken", Json.obj [("address", Json.str "B")]),
       ("quoteToken", Json.obj [("address", Json.str SOL_MINT)]),
       ("liquidity", Json.obj [("usd", Json.str "500")])]] "A"
     (by decide) (by decide)⟩

/-- C10: a pair that matches both address conditions but lacks the
`liquidity` field, or its `usd` sub-field, gets liquidity `0` by
default without raising, and is returned as the best pool when it is
the only match. -/
theorem missing_liquidity_defaults_zero (e : Json) (address : String)
    (hwf : DexScreenerClient.IsTradingPair e)
    (hm : DexScreenerClient.pairMatches e address = true)
    (hliq : e.objLookup "liquidity" = none ∨
      ∃ lf, e.objLookup "liquidity" = some (.obj lf) ∧ lf.lookup "usd" = none) :
    DexScreenerClient.pairLiquidity e = .ok 0 ∧
    DexScreenerClient.find_largest_pool_with_sol [e] address = .ok e := by
  obtain ⟨kvs, rfl⟩ : ∃ kvs, e = .obj kvs := by
    match e with
    | .obj kvs => exact ⟨kvs, rfl⟩
    | .null | .bool _ | .str _ | .int _ | .arr _ =>
      unfold DexScreenerClient.IsTradingPair DexScreenerClient.isTradingPair at hwf
      simp at hwf
  have hzero : (mkRat 0 1 : ℚ) = 0 := by decide
  have hliq0 : DexScreenerClient.pairLiquidity (.obj kvs) = .ok 0 := by
    rcases hliq with hnone | ⟨lf, hsome, husd⟩
    · simp only [Json.objLookup] at hnone
      simp [DexScreenerClient.pairLiquidity, pyDictGet, pyFloat, hnone, hzero,
        bind, Except.bind]
    · simp only [Json.objLookup] at hsome
      simp [DexScreenerClient.pairLiquidity, pyDictGet, pyFloat, hsome, husd,
        hzero, bind, Except.bind]
  refine ⟨hliq0, ?_⟩
  unfold DexScreenerClient.find_largest_pool_with_sol DexScreenerClient.poolLoop
  rw [DexScreenerClient.pairCond_eq_pairMatches address hwf, hm, hliq0]
  show (if (-1 : ℚ) < 0 then DexScreenerClient.poolLoop address [] (.obj kvs) 0
    else DexScreenerClient.poolLoop address [] (.obj []) (-1)) = .ok (.obj kvs)
  rw [if_pos (by norm_num)]
  rfl

/-- C6: when the pair list splits as `pre ++ p :: post` with `p` a
matching pair whose liquidity strictly exceeds every earlier match (and
the `-1` the running maximum starts from) and is at least every later
match, the scan returns `p` — the first-encountered pair attaining the
maximum, ties broken by scan order; with `pre = post = []` this also
selects a single qualifying pair of zero liquidity. -/
theorem find_largest_pool_first_max (pairs pre post : List Json) (p : Json)
    (address : String)
    (hsplit : pairs = pre ++ p :: post)
    (hwf : ∀ q ∈ pairs, DexScreenerClient.IsTradingPair q)
    (hlq : ∀ q ∈ pairs, DexScreenerClient.pairMatches q address = true →
      DexScreenerClient.LiquidityOk q)
    (hpm : DexScreenerClient.pairMatches p address = true)
    (hpos : -1 < DexScreenerClient.liqQ p)
    (hpre : ∀ q ∈ pre, DexScreenerClient.pairMatches q address = true →
      DexScreenerClient.liqQ q < DexScreenerClient.liqQ p)
    (hpost : ∀ q ∈ post, DexScreenerClient.pairMatches q address = true →
      DexScreenerClient.liqQ q ≤ DexScreenerClient.liqQ p) :
    DexScreenerClient.find_largest_pool_with_sol pairs address = .ok p := by
  subst hsplit
  exact DexScreenerClient.poolLoop_first_max address p hpm pre post
    (Json.obj []) (-1) hwf hlq hpos hpre hpost

/-- Witness for C6: the spec's 500/1500 example returns the second
pair, and a single qualifying pair with zero liquidity is selected. -/
theorem find_largest_pool_first_max_witness :
    DexScreenerClient.find_largest_pool_with_sol
      [Json.obj [("baseToken", Json.obj [("address", Json.str "A")]),
        ("quoteToken", Json.obj [("address", Json.str SOL_MINT)]),
        ("liquidity", Json.obj [("usd", Json.str "500")])],
       Json.obj [("baseToken", Json.obj [("address", Json.str "A")]),
        ("quoteToken", Json.obj [("address", Json.str SOL_MINT)]),
        ("liquidity", Json.obj [("usd", Json.str "1500")])]] "A" =
      .ok (Json.obj [("baseToken", Json.obj [("address", Json.str "A")]),
        ("quoteToken", Json.obj [("address", Json.str SOL_MINT)]),
        ("liquidity", Json.obj [("usd", Json.str "1500")])]) ∧
    DexScreenerClient.find_largest_pool_with_sol
      [Json.obj [("baseToken", Json.obj [("address", Json.str "A")]),
        ("quoteToken", Json.obj [("address", Json.str SOL_MINT)]),
        ("liquidity", Json.obj [("usd", Json.str "0")])]] "A" =
      .ok (Json.obj [("baseToken", Json.obj [("address", Json.str "A")]),
        ("quoteToken", Json.obj [("address", Json.str SOL_MINT)]),
        ("liquidity", Json.obj [("usd", Json.str "0")])]) := by
  constructor
  · refine find_largest_pool_first_max _
      [Json.obj [("baseToken", Json.obj [("address", Json.str "A")]),
        ("quoteToken", Json.obj [("address", Json.str SOL_MINT)]),
        ("liquidity", Json.obj [("usd", Json.str "500")])]] [] _ "A" rfl
      (by decide) ?_ (by decide) (by decide) (by decide) (by decide)
    intro q hq hm
    simp only [List.mem_cons, List.not_mem_nil, or_false] at hq
    rcases hq with rfl | rfl
    · exact ⟨mkRat 500 1, rfl⟩
    · exact ⟨mkRat 1500 1, rfl⟩
  · refine find_largest_pool_first_max _ [] [] _ "A" rfl
      (by decide) ?_ (by decide) (by decide) (by decide) (by decide)
    intro q hq hm
    simp only [List.mem_cons, List.not_mem_nil, or_false] at hq
    rcases hq with rfl
    exact ⟨mkRat 0 1, rfl⟩

/-- Witness for C10: a matching pair with no `liquidity` field at all. -/
theorem missing_liquidity_defaults_zero_witness :
    DexScreenerClient.pairLiquidity
      (Json.obj [("baseToken", Json.obj [("address", Json.str "A")]),
        ("quoteToken", Json.obj [("address", Json.str SOL_MINT)])]) = .ok 0 ∧
    DexScreenerClient.find_largest_pool_with_sol
      [Json.obj [("baseToken", Json.obj [("address", Json.str "A")]),
        ("quoteToken", Json.obj [("address", Json.str SOL_MINT)])]] "A" =
      .ok (Json.obj [("baseToken", Json.obj [("address", Json.str "A")]),
        ("quoteToken", Json.obj [("address", Json.str SOL_MINT)])]) :=
  missing_liquidity_defaults_zero
    (Json.obj [("baseToken", Json.obj [("address", Json.str "A")]),
      ("quoteToken", Json.obj [("address", Json.str SOL_MINT)])]) "A"
    (by decide) (by decide) (Or.inl rfl)

theorem DexScreenerClient.validate_token_address_ok {a : String} (hne : a ≠ "")
    (hv : is_solana_address a = true) :
    DexScreenerClient.validate_token_address a = .ok () := by
  unfold DexScreenerClient.validate_token_address
  rw [if_neg hne, if_neg (by simp [hv])]

/-- The per-address validation loop stops at the first failing address
with that address's error. -/
theorem DexScreenerClient.validateEach_error_first (pre : List String) (x : String)
    (rest : List String) (e : PyError)
    (hpre : ∀ a ∈ pre, DexScreenerClient.validate_token_address a = .ok ())
    (hx : DexScreenerClient.validate_token_address x = .error e) :
    DexScreenerClient.validateEach (pre ++ x :: rest) = .error e := by
  induction pre with
  | nil => simp [DexScreenerClient.validateEach, hx, bind, Except.bind]
  | cons a pre' ih =>
    have ha := hpre a (List.mem_cons_self a pre')
    simp only [List.cons_append, DexScreenerClient.validateEach, ha, bind,
      Except.bind]
    exact ih (fun b hb => hpre b (List.mem_cons_of_mem a hb))

theorem DexScreenerClient.validate_token_addresses_error_first (pre : List String)
    (x : String) (rest : List String) (e : PyError)
    (hpre : ∀ a ∈ pre, DexScreenerClient.validate_token_address a = .ok ())
    (hx : DexScreenerClient.validate_token_address x = .error e) :
    DexScreenerClient.validate_token_addresses (pre ++ x :: rest) = .error e := by
  unfold DexScreenerClient.validate_token_addresses
  rw [if_neg (by simp)]
  exact DexScreenerClient.validateEach_error_first pre x rest e hpre hx

/-- C9 counterexample: in `["!", ""]` the empty string is present, yet
validation raises `InvalidSolanaAddress` (for the preceding invalid
address `"!"`), not `NoPositionsError`, refuting the claim for every
list containing an empty string. -/
theorem validate_addresses_invalid_before_empty_cex :
    ("" ∈ ["!", ""]) ∧
    DexScreenerClient.validate_token_addresses ["!", ""] =
      .error .invalidSolanaAddress ∧
    PyError.invalidSolanaAddress ≠ PyError.noPositionsError :=
  ⟨by decide, rfl, by decide⟩

/-- C9 amended: when every address preceding the empty string passes
validation, the loop reaches the empty string and its per-address
emptiness check raises `NoPositionsError` — not `InvalidSolanaAddress`,
although `is_solana_address ""` is `false`. -/
theorem validate_addresses_empty_first_amended (pre rest : List String)
    (hpre : ∀ a ∈ pre, a ≠ "" ∧ is_solana_address a = true) :
    DexScreenerClient.validate_token_addresses (pre ++ "" :: rest) =
      .error .noPositionsError :=
  DexScreenerClient.validate_token_addresses_error_first pre "" rest
    .noPositionsError
    (fun a ha => DexScreenerClient.validate_token_address_ok (hpre a ha).1
      (hpre a ha).2)
    rfl

/-- Witness for C9's amended claim: a valid address followed by the
empty string. -/
theorem validate_addresses_empty_first_amended_witness :
    DexScreenerClient.validate_token_addresses
      ["So11111111111111111111111111111111111111112", ""] =
      .error .noPositionsError :=
  validate_addresses_empty_first_amended
    ["So11111111111111111111111111111111111111112"] [] (by decide)

/-- C1 counterexample: `"not-a-valid-address"` fails structural
validation, yet `BirdEyeClient.fetch_prices` does not fail with an
invalid-address error and performs one transport call — the BirdEye
client never validates addresses in `fetch_prices`. -/
theorem birdeye_fetch_prices_skips_validation_cex :
    is_solana_address "not-a-valid-address" = false ∧
    BirdEyeClient.fetch_prices ⟨200, Json.obj []⟩ ["not-a-valid-address"] =
      (.ok (Json.obj []), 1) :=
  ⟨by decide, rfl⟩

/-- C1 amended: `DexScreenerClient.fetch_prices_dex` fails with
`InvalidSolanaAddress` at the first structurally invalid address and
performs zero transport calls, provided that address is non-empty (an
empty string raises `NoPositionsError` instead, see C9);
`BirdEyeClient.fetch_prices` performs no address validation and issues
its transport call for every non-empty list. -/
theorem fetch_prices_invalid_address_amended :
    (∀ (resp : HttpResponse) (pre : List String) (a : String) (rest : List String),
      (∀ b ∈ pre, b ≠ "" ∧ is_solana_address b = true) →
      a ≠ "" → is_solana_address a = false →
      DexScreenerClient.fetch_prices_dex resp (pre ++ a :: rest) =
        (.error .invalidSolanaAddress, 0)) ∧
    (∀ (resp : HttpResponse) (addrs : List String), addrs ≠ [] →
      (BirdEyeClient.fetch_prices resp addrs).2 = 1) := by
  constructor
  · intro resp pre a rest hpre hne hinv
    have hbulk : DexScreenerClient.call_api_bulk resp (pre ++ a :: rest) =
        (.error .invalidSolanaAddress, 0) := by
      unfold DexScreenerClient.call_api_bulk
      rw [DexScreenerClient.validate_token_addresses_error_first pre a rest
        .invalidSolanaAddress
        (fun b hb => DexScreenerClient.validate_token_address_ok (hpre b hb).1
          (hpre b hb).2)
        (by unfold DexScreenerClient.validate_token_address
            rw [if_neg hne, if_pos (by simp [hinv])])]
    unfold DexScreenerClient.fetch_prices_dex
    rw [hbulk]
  · intro resp addrs hne
    unfold BirdEyeClient.fetch_prices
    rw [if_neg (by simp [hne])]
    by_cases hs : resp.status_code ≠ 200
    · rw [if_pos hs]
    · rw [if_neg hs]

/-- Witness for C1's amended claim: a valid address followed by
`"not-a-valid-address"` fails fast with zero calls on DexScreener,
while BirdEye issues its call on the invalid list. -/
theorem fetch_prices_invalid_address_amended_witness :
    DexScreenerClient.fetch_prices_dex ⟨200, Json.obj []⟩
      (["So11111111111111111111111111111111111111112"] ++
        "not-a-valid-address" :: []) = (.error .invalidSolanaAddress, 0) ∧
    (BirdEyeClient.fetch_prices ⟨200, Json.obj []⟩ ["not-a-valid-address"]).2 = 1 :=
  ⟨fetch_prices_invalid_address_amended.1 ⟨200, Json.obj []⟩
      ["So11111111111111111111111111111111111111112"] "not-a-valid-address" []
      (by decide) (by decide) (by decide),
   fetch_prices_invalid_address_amended.2 ⟨200, Json.obj []⟩
      ["not-a-valid-address"] (by decide)⟩

theorem pyDictIndex_error_of_none {j : Json} {k : String} (h : j.objLookup k = none) :
    ∃ e, pyDictIndex j k = .error e := by
  match j with
  | .obj kvs =>
    simp only [Json.objLookup] at h
    exact ⟨.keyError k, by simp [pyDictIndex, h]⟩
  | .null | .bool _ | .str _ | .int _ | .arr _ => exact ⟨.typeError, rfl⟩

/-- If any entry of the bulk response lacks its `price` or `liquidity`
key, the whole normalization loop fails (with the underlying Python
exception) and no partial mapping is produced. -/
theorem DexScreenerClient.normalizePrices_error_of_defect :
    ∀ kvs : List (String × Json),
      (∃ ad ∈ kvs, ad.2.objLookup "price" = none ∨
        ad.2.objLookup "liquidity" = none) →
      ∃ e, DexScreenerClient.normalizePrices kvs = .error e := by
  intro kvs
  induction kvs with
  | nil => rintro ⟨ad, h, _⟩; exact absurd h (List.not_mem_nil ad)
  | cons hd tl ih =>
    rintro ⟨ad, hmem, hdef⟩
    obtain ⟨addr, data⟩ := hd
    cases hp : pyDictIndex data "price" with
    | error e =>
      exact ⟨e, by simp [DexScreenerClient.normalizePrices, hp, bind, Except.bind]⟩
    | ok vp =>
      cases hpd : pyDecimal vp with
      | error e =>
        exact ⟨e, by
          simp [DexScreenerClient.normalizePrices, hp, hpd, bind, Except.bind]⟩
      | ok p =>
        cases hl : pyDictIndex data "liquidity" with
        | error e =>
          exact ⟨e, by
            simp [DexScreenerClient.normalizePrices, hp, hpd, hl, bind, Except.bind]⟩
        | ok vl =>
          cases hld : pyDecimal vl with
          | error e =>
            exact ⟨e, by
              simp [DexScreenerClient.normalizePrices, hp, hpd, hl, hld, bind,
                Except.bind]⟩
          | ok l =>
            rcases List.mem_cons.mp hmem with rfl | htl
            · rcases hdef with h | h
              · obtain ⟨e, he⟩ := pyDictIndex_error_of_none h
                rw [hp] at he
                exact absurd he (by simp)
              · obtain ⟨e, he⟩ := pyDictIndex_error_of_none h
                rw [hl] at he
                exact absurd he (by simp)
            · obtain ⟨e, he⟩ := ih ⟨ad, htl, hdef⟩
              exact ⟨e, by
                simp [DexScreenerClient.normalizePrices, hp, hpd, hl, hld, he,
                  bind, Except.bind]⟩

/-- C2 counterexample: on the body `{"A": {"price":"1","liquidity":"2"},
"B": {"price":"1"}}` the BirdEye client does not fail at all — it
returns the raw body unchanged — and the DexScreener client fails with
`KeyError`, not `InvalidTokens`. -/
theorem bulk_partial_body_cex :
    BirdEyeClient.fetch_prices
      ⟨200, Json.obj [("A", Json.obj [("price", Json.str "1"),
        ("liquidity", Json.str "2")]),
        ("B", Json.obj [("price", Json.str "1")])]⟩
      ["WskzsKqEW3ZsmrhPAevfVZb6PuuLzWov9mJWZsfDePC"] =
      (.ok (Json.obj [("A", Json.obj [("price", Json.str "1"),
        ("liquidity", Json.str "2")]),
        ("B", Json.obj [("price", Json.str "1")])]), 1) ∧
    DexScreenerClient.fetch_prices_dex
      ⟨200, Json.obj [("A", Json.obj [("price", Json.str "1"),
        ("liquidity", Json.str "2")]),
        ("B", Json.obj [("price", Json.str "1")])]⟩
      ["WskzsKqEW3ZsmrhPAevfVZb6PuuLzWov9mJWZsfDePC"] =
      (.error (.keyError "liquidity"), 1) ∧
    PyError.keyError "liquidity" ≠ PyError.invalidTokens :=
  ⟨rfl, rfl, by decide⟩

/-- C2 amended: when a bulk response entry lacks `price` or
`liquidity`, `DexScreenerClient.fetch_prices_dex` fails the whole call
(with the underlying `KeyError`, not `InvalidTokens`) and returns no
partial mapping, while `BirdEyeClient.fetch_prices` performs no
normalization at all and returns the raw 200-status body unchanged. -/
theorem bulk_missing_field_amended :
    (∀ (resp : HttpResponse) (addrs : List String) (kvs : List (String × Json)),
      DexScreenerClient.validate_token_addresses addrs = .ok () →
      resp.status_code = 200 →
      resp.json_body = .obj kvs →
      (∃ ad ∈ kvs, ad.2.objLookup "price" = none ∨
        ad.2.objLookup "liquidity" = none) →
      ∃ e, DexScreenerClient.fetch_prices_dex resp addrs = (.error e, 1)) ∧
    (∀ (resp : HttpResponse) (addrs : List String), addrs ≠ [] →
      resp.status_code = 200 →
      BirdEyeClient.fetch_prices resp addrs = (.ok resp.json_body, 1)) := by
  constructor
  · intro resp addrs kvs hv hs hb hdef
    obtain ⟨e, he⟩ := DexScreenerClient.normalizePrices_error_of_defect kvs hdef
    have hbulk : DexScreenerClient.call_api_bulk resp addrs =
        (.ok resp.json_body, 1) := by
      unfold DexScreenerClient.call_api_bulk DexScreenerClient.validate_response
      rw [hv, if_neg (by simp [hs])]
    refine ⟨e, ?_⟩
    unfold DexScreenerClient.fetch_prices_dex
    rw [hbulk, hb]
    show (DexScreenerClient.normalizePrices kvs, 1) = (.error e, 1)
    rw [he]
  · intro resp addrs hne hs
    unfold BirdEyeClient.fetch_prices
    rw [if_neg (by simp [hne]), if_neg (by simp [hs])]

/-- Witness for C2's amended claim at the stub body with `B` missing
its liquidity. -/
theorem bulk_missing_field_amended_witness :
    (∃ e, DexScreenerClient.fetch_prices_dex
      ⟨200, Json.obj [("A", Json.obj [("price", Json.str "1"),
        ("liquidity", Json.str "2")]),
        ("B", Json.obj [("price", Json.str "1")])]⟩
      ["WskzsKqEW3ZsmrhPAevfVZb6PuuLzWov9mJWZsfDePC"] = (.error e, 1)) ∧
    BirdEyeClient.fetch_prices
      ⟨200, Json.obj [("A", Json.obj [("price", Json.str "1"),
        ("liquidity", Json.str "2")]),
        ("B", Json.obj [("price", Json.str "1")])]⟩
      ["WskzsKqEW3ZsmrhPAevfVZb6PuuLzWov9mJWZsfDePC"] =
      (.ok (Json.obj [("A", Json.obj [("price", Json.str "1"),
        ("liquidity", Json.str "2")]),
        ("B", Json.obj [("price", Json.str "1")])]), 1) :=
  ⟨bulk_missing_field_amended.1
      ⟨200, Json.obj [("A", Json.obj [("price", Json.str "1"),
        ("liquidity", Json.str "2")]),
        ("B", Json.obj [("price", Json.str "1")])]⟩
      ["WskzsKqEW3ZsmrhPAevfVZb6PuuLzWov9mJWZsfDePC"]
      [("A", Json.obj [("price", Json.str "1"), ("liquidity", Json.str "2")]),
        ("B", Json.obj [("price", Json.str "1")])]
      rfl rfl rfl
      ⟨("B", Json.obj [("price", Json.str "1")]), by simp, Or.inr rfl⟩,
   bulk_missing_field_amended.2
      ⟨200, Json.obj [("A", Json.obj [("price", Json.str "1"),
        ("liquidity", Json.str "2")]),
        ("B", Json.obj [("price", Json.str "1")])]⟩
      ["WskzsKqEW3ZsmrhPAevfVZb6PuuLzWov9mJWZsfDePC"] (by decide) rfl⟩

/-- C3 counterexample: for a valid address and the spec's stub body,
`BirdEyeClient.fetch_token_overview` returns the raw JSON body with
`price` still the *string* `"1.23"` — it constructs no `TokenOverview`
and performs no decimal conversion. -/
theorem birdeye_overview_raw_body_cex :
    is_solana_address "EKpQGSJtjMFqKZ9KQanSqYXRcF8fBopzLHYxdM65zcjm" = true ∧
    BirdEyeClient.fetch_token_overview
      ⟨200, Json.obj [("price", Json.str "1.23"),
        ("liquidity", Json.str "1000.5"), ("symbol", Json.str "X"),
        ("decimals", Json.int 6), ("lastTradeUnixTime", Json.int 1700000000),
        ("supply", Json.str "999999")]⟩
      "EKpQGSJtjMFqKZ9KQanSqYXRcF8fBopzLHYxdM65zcjm" =
      (.ok (Json.obj [("price", Json.str "1.23"),
        ("liquidity", Json.str "1000.5"), ("symbol", Json.str "X"),
        ("decimals", Json.int 6), ("lastTradeUnixTime", Json.int 1700000000),
        ("supply", Json.str "999999")]), 1) :=
  ⟨by decide, rfl⟩

/-- C3 amended: `DexScreenerClient.fetch_token_overview` returns a
`TokenOverview` whose `price`, `liquidity` and `supply` are exactly the
parsed decimal values of the corresponding numeric strings, with
`symbol`, `decimals` and `lastTradeUnixTime` passed through verbatim;
`BirdEyeClient.fetch_token_overview` instead returns the raw JSON body
unchanged. -/
theorem token_overview_exact_decimals_amended :
    (∀ (resp : HttpResponse) (address : String) (kvs : List (String × Json))
        (ps ls ss : String) (sym dec ltt : Json) (pv lv sv : ℚ),
      address ≠ "" → is_solana_address address = true →
      resp.status_code = 200 → resp.json_body = .obj kvs →
      kvs.lookup "price" = some (.str ps) → parsePyDecimal ps = some pv →
      kvs.lookup "symbol" = some sym →
      kvs.lookup "decimals" = some dec →
      kvs.lookup "lastTradeUnixTime" = some ltt →
      kvs.lookup "liquidity" = some (.str ls) → parsePyDecimal ls = some lv →
      kvs.lookup "supply" = some (.str ss) → parsePyDecimal ss = some sv →
      DexScreenerClient.fetch_token_overview resp address =
        (.ok ⟨pv, sym, dec, ltt, lv, sv⟩, 1)) ∧
    (∀ (resp : HttpResponse) (address : String),
      is_solana_address address = true → resp.status_code = 200 →
      BirdEyeClient.fetch_token_overview resp address = (.ok resp.json_body, 1)) := by
  constructor
  · intro resp address kvs ps ls ss sym dec ltt pv lv sv hne hval hs hb hp hpv
      hsym hdec hltt hl hlv hsup hsv
    have hca : DexScreenerClient.call_api resp address = (.ok resp.json_body, 1) := by
      unfold DexScreenerClient.call_api DexScreenerClient.validate_response
      rw [DexScreenerClient.validate_token_address_ok hne hval,
        if_neg (by simp [hs])]
    unfold DexScreenerClient.fetch_token_overview
    rw [hca, hb]
    show (DexScreenerClient.normalizeOverview (.obj kvs), 1) = _
    unfold DexScreenerClient.normalizeOverview
    simp [pyDictIndex, pyDecimal, hp, hpv, hsym, hdec, hltt, hl, hlv, hsup, hsv,
      bind, Except.bind, pure, Except.pure]
  · intro resp address hval hs
    unfold BirdEyeClient.fetch_token_overview
    rw [if_neg (by simp [hval]), if_neg (by simp [hs])]

/-- Witness for C3's amended claim at the spec's stub body:
`price` is exactly `123/100` and `liquidity` exactly `10005/10`. -/
theorem token_overview_exact_decimals_amended_witness :
    DexScreenerClient.fetch_token_overview
      ⟨200, Json.obj [("price", Json.str "1.23"),
        ("liquidity", Json.str "1000.5"), ("symbol", Json.str "X"),
        ("decimals", Json.int 6), ("lastTradeUnixTime", Json.int 1700000000),
        ("supply", Json.str "999999")]⟩
      "EKpQGSJtjMFqKZ9KQanSqYXRcF8fBopzLHYxdM65zcjm" =
      (.ok ⟨mkRat 123 100, Json.str "X", Json.int 6, Json.int 1700000000,
        mkRat 10005 10, mkRat 999999 1⟩, 1) ∧
    BirdEyeClient.fetch_token_overview ⟨200, Json.obj []⟩
      "EKpQGSJtjMFqKZ9KQanSqYXRcF8fBopzLHYxdM65zcjm" = (.ok (Json.obj []), 1) :=
  ⟨token_overview_exact_decimals_amended.1
      ⟨200, Json.obj [("price", Json.str "1.23"),
        ("liquidity", Json.str "1000.5"), ("symbol", Json.str "X"),
        ("decimals", Json.int 6), ("lastTradeUnixTime", Json.int 1700000000),
        ("supply", Json.str "999999")]⟩
      "EKpQGSJtjMFqKZ9KQanSqYXRcF8fBopzLHYxdM65zcjm"
      [("price", Json.str "1.23"), ("liquidity", Json.str "1000.5"),
        ("symbol", Json.str "X"), ("decimals", Json.int 6),
        ("lastTradeUnixTime", Json.int 1700000000),
        ("supply", Json.str "999999")]
      "1.23" "1000.5" "999999" (Json.str "X") (Json.int 6)
      (Json.int 1700000000) (mkRat 123 100) (mkRat 10005 10) (mkRat 999999 1)
      (by decide) (by decide) rfl rfl rfl (by decide) rfl rfl rfl rfl
      (by decide) rfl (by decide),
   token_overview_exact_decimals_amended.2 ⟨200, Json.obj []⟩
      "EKpQGSJtjMFqKZ9KQanSqYXRcF8fBopzLHYxdM65zcjm" (by decide) rfl⟩

/-- C4 counterexample: a body missing the required keys `liquidity`,
`symbol`, `decimals`, `lastTradeUnixTime` and `supply` but carrying a
malformed `price` fails with `decimal.InvalidOperation` (the
malformed-number condition), not with a `KeyError` (the missing-field
condition), refuting the claim's universal missing-key clause. -/
theorem overview_mixed_defect_cex :
    (Json.obj [("price", Json.str "abc")]).objLookup "liquidity" = none ∧
    DexScreenerClient.normalizeOverview (Json.obj [("price", Json.str "abc")]) =
      .error .invalidOperation ∧
    PyError.invalidOperation ≠ PyError.keyError "liquidity" :=
  ⟨rfl, rfl, by decide⟩

/-- C4 amended: the first defect in the evaluation order `price`,
`symbol`, `decimals`, `lastTradeUnixTime`, `liquidity`, `supply`
determines the error: with all required keys present, a malformed
numeric field fails with `decimal.InvalidOperation` (the
malformed-number condition); when every present numeric field parses,
a missing required key fails with `KeyError` for a missing key (the
missing-field condition). -/
theorem overview_error_classification_amended :
    (∀ (kvs : List (String × Json)) (vp vl vs sym dec ltt : Json),
      kvs.lookup "price" = some vp → kvs.lookup "symbol" = some sym →
      kvs.lookup "decimals" = some dec →
      kvs.lookup "lastTradeUnixTime" = some ltt →
      kvs.lookup "liquidity" = some vl → kvs.lookup "supply" = some vs →
      (pyDecimal vp = .error .invalidOperation ∨
        (∃ p, pyDecimal vp = .ok p ∧ pyDecimal vl = .error .invalidOperation) ∨
        (∃ p l, pyDecimal vp = .ok p ∧ pyDecimal vl = .ok l ∧
          pyDecimal vs = .error .invalidOperation)) →
      DexScreenerClient.normalizeOverview (.obj kvs) = .error .invalidOperation) ∧
    (∀ kvs : List (String × Json),
      (∀ v, kvs.lookup "price" = some v → ∃ q, pyDecimal v = .ok q) →
      (∀ v, kvs.lookup "liquidity" = some v → ∃ q, pyDecimal v = .ok q) →
      (∀ v, kvs.lookup "supply" = some v → ∃ q, pyDecimal v = .ok q) →
      ((kvs.lookup "price").isNone ∨ (kvs.lookup "symbol").isNone ∨
        (kvs.lookup "decimals").isNone ∨
        (kvs.lookup "lastTradeUnixTime").isNone ∨
        (kvs.lookup "liquidity").isNone ∨ (kvs.lookup "supply").isNone) →
      ∃ k, (kvs.lookup k).isNone ∧
        DexScreenerClient.normalizeOverview (.obj kvs) = .error (.keyError k)) := by
  constructor
  · rintro kvs vp vl vs sym dec ltt hp hsym hdec hltt hl hsup
      (h | ⟨p, hpok, h⟩ | ⟨p, l, hpok, hlok, h⟩)
    · simp [DexScreenerClient.normalizeOverview, pyDictIndex, hp, h, bind,
        Except.bind]
    · simp [DexScreenerClient.normalizeOverview, pyDictIndex, hp, hpok, hsym,
        hdec, hltt, hl, h, bind, Except.bind]
    · simp [DexScreenerClient.normalizeOverview, pyDictIndex, hp, hpok, hsym,
        hdec, hltt, hl, hlok, hsup, h, bind, Except.bind]
  · intro kvs hnp hnl hns hmiss
    cases hp : kvs.lookup "price" with
    | none =>
      exact ⟨"price", by simp [hp], by
        simp [DexScreenerClient.normalizeOverview, pyDictIndex, hp, bind,
          Except.bind]⟩
    | some vp =>
      obtain ⟨p, hpok⟩ := hnp vp hp
      cases hsym : kvs.lookup "symbol" with
      | none =>
        exact ⟨"symbol", by simp [hsym], by
          simp [DexScreenerClient.normalizeOverview, pyDictIndex, hp, hpok,
            hsym, bind, Except.bind]⟩
      | some sym =>
        cases hdec : kvs.lookup "decimals" with
        | none =>
          exact ⟨"decimals", by simp [hdec], by
            simp [DexScreenerClient.normalizeOverview, pyDictIndex, hp, hpok,
              hsym, hdec, bind, Except.bind]⟩
        | some dec =>
          cases hltt : kvs.lookup "lastTradeUnixTime" with
          | none =>
            exact ⟨"lastTradeUnixTime", by simp [hltt], by
              simp [DexScreenerClient.normalizeOverview, pyDictIndex, hp, hpok,
                hsym, hdec, hltt, bind, Except.bind]⟩
          | some ltt =>
            cases hl : kvs.lookup "liquidity" with
            | none =>
              exact ⟨"liquidity", by simp [hl], by
                simp [DexScreenerClient.normalizeOverview, pyDictIndex, hp,
                  hpok, hsym, hdec, hltt, hl, bind, Except.bind]⟩
            | some vl =>
              obtain ⟨l, hlok⟩ := hnl vl hl
              cases hsup : kvs.lookup "supply" with
              | none =>
                exact ⟨"supply", by simp [hsup], by
                  simp [DexScreenerClient.normalizeOverview, pyDictIndex, hp,
                    hpok, hsym, hdec, hltt, hl, hlok, hsup, bind, Except.bind]⟩
              | some vs' =>
                rcases hmiss with h | h | h | h | h | h <;>
                  simp [hp, hsym, hdec, hltt, hl, hsup] at h

/-- Witness for C4's amended claim: a malformed `liquidity` with all
keys present fails `InvalidOperation`; a body containing only `symbol`
fails `KeyError` on a missing key. -/
theorem overview_error_classification_amended_witness :
    DexScreenerClient.normalizeOverview
      (Json.obj [("price", Json.str "1"), ("symbol", Json.str "X"),
        ("decimals", Json.int 6), ("lastTradeUnixTime", Json.int 1),
        ("liquidity", Json.str "oops"), ("supply", Json.str "3")]) =
      .error .invalidOperation ∧
    (∃ k, ((([("symbol", Json.str "X")] : List (String × Json)).lookup k).isNone ∧
      DexScreenerClient.normalizeOverview (Json.obj [("symbol", Json.str "X")]) =
        .error (.keyError k))) :=
  ⟨overview_error_classification_amended.1
      [("price", Json.str "1"), ("symbol", Json.str "X"),
        ("decimals", Json.int 6), ("lastTradeUnixTime", Json.int 1),
        ("liquidity", Json.str "oops"), ("supply", Json.str "3")]
      (Json.str "1") (Json.str "oops") (Json.str "3") (Json.str "X")
      (Json.int 6) (Json.int 1) rfl rfl rfl rfl rfl rfl
      (Or.inr (Or.inl ⟨mkRat 1 1, rfl, rfl⟩)),
   overview_error_classification_amended.2 [("symbol", Json.str "X")]
      (fun v hv => by simp [List.lookup] at hv)
      (fun v hv => by simp [List.lookup] at hv)
      (fun v hv => by simp [List.lookup] at hv) (Or.inl (by decide))⟩

end Screening
